import Mathlib

/-!
Shallow embedding of src/form-validation.js.

The script reads ambient DOM state: the ordered values of the elements
carrying the class marker for required fields, the email input (value and
class list), and the status span (text content and color).  Alerts are the
only non-state effect, modelled as an explicit effect trace.
-/

namespace FormValidation

/-- An input element as the script sees it: current text value and class list. -/
structure EmailInput where
  value : String
  classList : List String
deriving DecidableEq

/-- The status span: text content and style color, the two properties the script writes. -/
structure StatusSpan where
  textContent : String
  color : String
deriving DecidableEq

/-- The ambient DOM state the script reads and writes. -/
structure Dom where
  requiredFields : List String
  email : Option EmailInput
  statusSpan : Option StatusSpan
deriving DecidableEq

/-- Effects outside the modelled DOM state: the blocking alert, and the
(never performed) cancellation of the default submit action. -/
inductive Effect where
  | alert (msg : String)
  | preventDefault
deriving DecidableEq

/-- JS String.prototype.trim on the character list: drop leading and trailing whitespace. -/
def trimChars (l : List Char) : List Char :=
  ((l.dropWhile Char.isWhitespace).reverse.dropWhile Char.isWhitespace).reverse

/-- JS value.trim() on a string. -/
def jsTrim (s : String) : String :=
  String.mk (trimChars s.data)

/-- classList.add: append the class when it is not already present. -/
def classAdd (l : List String) (c : String) : List String :=
  if c ∈ l then l else l ++ [c]

/-- classList.remove: drop every occurrence of the class. -/
def classRemove (l : List String) (c : String) : List String :=
  l.filter (fun x => x ≠ c)

/-- The forEach loop of checkMissing: missingCount starts at 0 and is
incremented for every field value that is falsy after trimming. -/
def countMissing (values : List String) : Nat :=
  values.foldl (fun acc v => if jsTrim v = "" then acc + 1 else acc) 0

/-- checkMissing: count required fields whose trimmed value is empty
(the forEach loop with missingCount++), then if the status span exists
render the count as red incomplete text or green completed text.
Returns the count together with the updated DOM. -/
def checkMissing (d : Dom) : Nat × Dom :=
  let missingCount := countMissing d.requiredFields
  match d.statusSpan with
  | none => (missingCount, d)
  | some _ =>
    if missingCount > 0 then
      (missingCount,
       { d with
           statusSpan := some ⟨toString missingCount ++ " required field(s) still incomplete.", "red"⟩ })
    else
      (missingCount,
       { d with statusSpan := some ⟨"All required fields completed.", "green"⟩ })

/-- validateEmail: when the email input is absent return true; otherwise
valid means the trimmed value has length at least 8, the invalid class is
added when invalid and removed when valid, and the validity is returned. -/
def validateEmail (d : Dom) : Bool × Dom :=
  match d.email with
  | none => (true, d)
  | some e =>
    let isValid : Bool := decide (8 ≤ (jsTrim e.value).length)
    if !isValid then
      (isValid, { d with email := some { e with classList := classAdd e.classList "invalid" } })
    else
      (isValid, { d with email := some { e with classList := classRemove e.classList "invalid" } })

/-- The warning alert text of validateForm. -/
def warningMsg : String :=
  "⚠️ Please complete all required fields and ensure the email has at least 8 characters."

/-- The success alert text of validateForm. -/
def successMsg : String :=
  "✅ Form submitted successfully!"

/-- validateForm: run checkMissing then validateEmail on the resulting DOM,
and alert the warning when fields are missing or the email is invalid,
otherwise alert the success message.  Returns the updated DOM and the
effect trace of the call. -/
def validateForm (d : Dom) : Dom × List Effect :=
  let r1 := checkMissing d
  let r2 := validateEmail r1.2
  if 0 < r1.1 ∨ r2.1 = false then
    (r2.2, [Effect.alert warningMsg])
  else
    (r2.2, [Effect.alert successMsg])

/-- Scenario A of the spec: required values "" and "x", email "abc". -/
def demoDom : Dom :=
  { requiredFields := ["", "x"]
    email := some ⟨"abc", []⟩
    statusSpan := some ⟨"", ""⟩ }

/-- A DOM with no email input. -/
def noEmailDom : Dom :=
  { requiredFields := ["a"]
    email := none
    statusSpan := some ⟨"", ""⟩ }

/-- A DOM with no status span. -/
def noSpanDom : Dom :=
  { requiredFields := ["  ", "b"]
    email := some ⟨"abcdefgh", []⟩
    statusSpan := none }

/-- Scenario B of the spec: all required values filled, email of length 8. -/
def fullDom : Dom :=
  { requiredFields := ["a", "b"]
    email := some ⟨"abcdefgh", []⟩
    statusSpan := some ⟨"", ""⟩ }

/-- A DOM whose email value trims to length 8. -/
def emailDom8 : Dom :=
  { requiredFields := []
    email := some ⟨" abcdefgh ", []⟩
    statusSpan := none }

/-- A DOM whose email value trims to length 7. -/
def emailDom7 : Dom :=
  { requiredFields := []
    email := some ⟨"abcdefg", []⟩
    statusSpan := none }

example : (checkMissing demoDom).1 = 1 := by decide
example : (validateEmail demoDom).1 = false := by decide
example : (checkMissing demoDom).2.statusSpan =
    some ⟨"1 required field(s) still incomplete.", "red"⟩ := by decide
example : (validateForm demoDom).2 = [Effect.alert warningMsg] := by decide
example : (checkMissing noSpanDom).1 = 1 := by decide
example : (checkMissing noSpanDom).2 = noSpanDom := by decide
example : (validateEmail noEmailDom) = (true, noEmailDom) := by decide
example : (validateForm fullDom).2 = [Effect.alert successMsg] := by decide
example : (validateEmail emailDom8).1 = true := by decide
example : (validateEmail emailDom7).1 = false := by decide

/-! ### Helper lemmas -/

/-- The incrementing fold computes the length of the filtered list. -/
lemma foldl_missing_eq (l : List String) (n : Nat) :
    l.foldl (fun acc v => if jsTrim v = "" then acc + 1 else acc) n
      = n + (l.filter (fun v => jsTrim v = "")).length := by
  induction l generalizing n with
  | nil => simp
  | cons x xs ih =>
    by_cases h : jsTrim x = ""
    · simp [h, ih]
      omega
    · simp [h, ih]

/-- countMissing is the number of values whose trimmed form is empty. -/
lemma countMissing_eq (l : List String) :
    countMissing l = (l.filter (fun v => jsTrim v = "")).length := by
  simpa using foldl_missing_eq l 0

/-- checkMissing returns the countMissing of the required values. -/
lemma checkMissing_fst (d : Dom) :
    (checkMissing d).1 = countMissing d.requiredFields := by
  unfold checkMissing
  cases d.statusSpan
  · rfl
  · dsimp
    split <;> rfl

/-- checkMissing leaves the required field values and the email input untouched. -/
lemma checkMissing_frame (d : Dom) :
    (checkMissing d).2.requiredFields = d.requiredFields ∧
    (checkMissing d).2.email = d.email := by
  unfold checkMissing
  cases d.statusSpan <;> dsimp
  · exact ⟨rfl, rfl⟩
  · split <;> exact ⟨rfl, rfl⟩

/-- validateEmail's returned flag depends only on the email input. -/
lemma validateEmail_fst_congr (d d' : Dom) (h : d.email = d'.email) :
    (validateEmail d).1 = (validateEmail d').1 := by
  unfold validateEmail
  rw [h]
  cases d'.email
  · rfl
  · dsimp
    split <;> rfl

/-- validateEmail with an email input present returns the length test on the trimmed value. -/
lemma validateEmail_fst_some (d : Dom) (e : EmailInput) (h : d.email = some e) :
    (validateEmail d).1 = decide (8 ≤ (jsTrim e.value).length) := by
  unfold validateEmail
  rw [h]
  dsimp
  split <;> simp_all

/-- classList.add makes the class present. -/
lemma mem_classAdd (l : List String) (c : String) : c ∈ classAdd l c := by
  unfold classAdd
  split <;> simp_all

/-- classList.add on an already present class changes nothing. -/
lemma classAdd_of_mem (l : List String) (c : String) (h : c ∈ l) : classAdd l c = l := by
  simp [classAdd, h]

/-- classList.remove makes the class absent. -/
lemma not_mem_classRemove (l : List String) (c : String) : c ∉ classRemove l c := by
  simp [classRemove]

/-- classList.remove twice is classList.remove once. -/
lemma classRemove_idem (l : List String) (c : String) :
    classRemove (classRemove l c) c = classRemove l c := by
  induction l with
  | nil => rfl
  | cons x xs ih =>
    by_cases h : x = c <;> simp [classRemove, h] at ih ⊢

/-- Running checkMissing twice is the same as running it once. -/
lemma checkMissing_idem (d : Dom) :
    checkMissing (checkMissing d).2 = checkMissing d := by
  rcases d with ⟨rf, em, sp⟩
  cases sp
  · rfl
  · by_cases hn : 0 < countMissing rf <;> simp [checkMissing, hn]

/-- Running validateEmail twice is the same as running it once. -/
lemma validateEmail_idem (d : Dom) :
    validateEmail (validateEmail d).2 = validateEmail d := by
  rcases d with ⟨rf, em, sp⟩
  cases em with
  | none => rfl
  | some e =>
    unfold validateEmail
    dsimp
    by_cases hv : 8 ≤ (jsTrim e.value).length <;>
      simp [hv, classRemove_idem, classAdd_of_mem, mem_classAdd]

/-- The effect trace of validateForm, phrased via the two checks on the
original DOM. -/
lemma validateForm_snd (d : Dom) :
    (validateForm d).2 =
      if 0 < (checkMissing d).1 ∨ (validateEmail d).1 = false
      then [Effect.alert warningMsg] else [Effect.alert successMsg] := by
  unfold validateForm
  have he : (validateEmail (checkMissing d).2).1 = (validateEmail d).1 :=
    validateEmail_fst_congr _ _ (checkMissing_frame d).2
  dsimp
  rw [he]
  split <;> rfl

/-- validateEmail leaves the required values and the email value untouched. -/
lemma validateEmail_frame (d : Dom) :
    (validateEmail d).2.requiredFields = d.requiredFields ∧
    (validateEmail d).2.email.map EmailInput.value = d.email.map EmailInput.value := by
  rcases d with ⟨rf, em, sp⟩
  cases em with
  | none => exact ⟨rfl, rfl⟩
  | some e =>
    unfold validateEmail
    dsimp
    split <;> exact ⟨rfl, rfl⟩

/-- validateForm leaves the required values and the email value untouched. -/
lemma validateForm_fst_frame (d : Dom) :
    (validateForm d).1.requiredFields = d.requiredFields ∧
    (validateForm d).1.email.map EmailInput.value = d.email.map EmailInput.value := by
  have h1 := checkMissing_frame d
  have h2 := validateEmail_frame (checkMissing d).2
  have hd : (validateForm d).1 = (validateEmail (checkMissing d).2).2 := by
    unfold validateForm
    dsimp
    split <;> rfl
  rw [hd, h2.1, h1.1]
  refine ⟨rfl, ?_⟩
  rw [h2.2, h1.2]

/-! ### Claims -/

/-- C1: For every DOM state, checkMissing returns exactly the number of
required fields whose value trims to the empty string; a value consisting
only of whitespace trims to empty, so it counts as missing, and the
returned count is a nonnegative integer. -/
theorem checkMissing_exact_count (d : Dom) :
    (checkMissing d).1 = (d.requiredFields.filter (fun v => jsTrim v = "")).length ∧
    (∀ v : String, (∀ c ∈ v.data, c.isWhitespace = true) → jsTrim v = "") ∧
    0 ≤ (checkMissing d).1 := by
  refine ⟨by rw [checkMissing_fst, countMissing_eq], ?_, Nat.zero_le _⟩
  intro v hv
  unfold jsTrim trimChars
  have h2 : v.data.dropWhile Char.isWhitespace = [] := by
    rw [List.dropWhile_eq_nil_iff]
    exact fun x hx => hv x hx
  rw [h2]
  rfl

/-- Witness for C1 at the spec's Scenario A plus a whitespace-only value. -/
theorem checkMissing_exact_count_witness :
    (checkMissing demoDom).1 =
      (demoDom.requiredFields.filter (fun v => jsTrim v = "")).length ∧
    jsTrim " " = "" :=
  ⟨(checkMissing_exact_count demoDom).1,
   (checkMissing_exact_count demoDom).2.1 " " (by decide)⟩

/-- C2: With the email input present, validateEmail returns true exactly when
the trimmed value has length at least 8, hence false exactly when the trimmed
length is at most 7. -/
theorem validateEmail_length_rule (d : Dom) (e : EmailInput)
    (h : d.email = some e) :
    ((validateEmail d).1 = true ↔ 8 ≤ (jsTrim e.value).length) ∧
    ((validateEmail d).1 = false ↔ (jsTrim e.value).length < 8) := by
  rw [validateEmail_fst_some d e h]
  constructor
  · simp
  · simp [Nat.not_le]

/-- Witness for C2 at trimmed lengths exactly 8 and exactly 7. -/
theorem validateEmail_length_rule_witness :
    (validateEmail emailDom8).1 = true ∧ (validateEmail emailDom7).1 = false := by
  constructor
  · exact (validateEmail_length_rule emailDom8 ⟨" abcdefgh ", []⟩ rfl).1.2 (by decide)
  · exact (validateEmail_length_rule emailDom7 ⟨"abcdefg", []⟩ rfl).2.2 (by decide)

/-- C3: validateForm surfaces exactly one blocking notification: the warning
alert exactly when the missing count is positive or the email is invalid, and
the success alert exactly when no field is missing and the email is valid. -/
theorem validateForm_single_verdict (d : Dom) :
    (validateForm d).2.length = 1 ∧
    ((validateForm d).2 = [Effect.alert warningMsg] ↔
      (0 < (checkMissing d).1 ∨ (validateEmail d).1 = false)) ∧
    ((validateForm d).2 = [Effect.alert successMsg] ↔
      ((checkMissing d).1 = 0 ∧ (validateEmail d).1 = true)) := by
  have hne : warningMsg ≠ successMsg := by decide
  rw [validateForm_snd]
  by_cases h : 0 < (checkMissing d).1 ∨ (validateEmail d).1 = false
  · rw [if_pos h]
    refine ⟨rfl, by simpa using h, ?_⟩
    simp only [List.cons.injEq, Effect.alert.injEq, and_true]
    constructor
    · intro hw; exact absurd hw hne
    · rintro ⟨hc, hok⟩
      rcases h with h | h
      · omega
      · rw [hok] at h; cases h
  · rw [if_neg h]
    push_neg at h
    obtain ⟨hc, hok⟩ := h
    have hc0 : (checkMissing d).1 = 0 := Nat.le_zero.mp hc
    have hok1 : (validateEmail d).1 = true := by
      cases hb : (validateEmail d).1
      · exact absurd hb hok
      · rfl
    refine ⟨rfl, ?_, by simp [hc0, hok1]⟩
    simp only [List.cons.injEq, Effect.alert.injEq, and_true]
    constructor
    · intro hw; exact absurd hw.symm hne
    · rintro (h1 | h1)
      · rw [hc0] at h1; exact absurd h1 (lt_irrefl 0)
      · rw [hok1] at h1; cases h1

/-- C4: validateForm never cancels the default submit action: no
preventDefault effect appears in its effect trace on any path. -/
theorem validateForm_no_preventDefault (d : Dom) :
    Effect.preventDefault ∉ (validateForm d).2 := by
  rw [validateForm_snd]
  split <;> simp

/-- C5: When the email input is absent, validateEmail returns true and the
DOM is completely unchanged: the missing-field edge case raises no failure
and performs no side effect. -/
theorem validateEmail_absent_valid (d : Dom) (h : d.email = none) :
    validateEmail d = (true, d) := by
  unfold validateEmail
  rw [h]

/-- Witness for C5 on a DOM without an email input. -/
theorem validateEmail_absent_valid_witness :
    validateEmail noEmailDom = (true, noEmailDom) :=
  validateEmail_absent_valid noEmailDom rfl

/-- C6: When the status span is absent, checkMissing leaves the DOM
unchanged (the rendering step is skipped silently) and still returns the
count of required fields whose trimmed value is empty. -/
theorem checkMissing_absent_span (d : Dom) (h : d.statusSpan = none) :
    (checkMissing d).2 = d ∧
    (checkMissing d).1 = (d.requiredFields.filter (fun v => jsTrim v = "")).length := by
  constructor
  · unfold checkMissing
    rw [h]
  · rw [checkMissing_fst, countMissing_eq]

/-- Witness for C6 on a DOM without a status span. -/
theorem checkMissing_absent_span_witness :
    (checkMissing noSpanDom).2 = noSpanDom ∧
    (checkMissing noSpanDom).1 =
      (noSpanDom.requiredFields.filter (fun v => jsTrim v = "")).length :=
  checkMissing_absent_span noSpanDom rfl

/-- C7: When the status span exists, checkMissing renders the interpolated
incomplete message in red for a positive count and the completed message in
green for a zero count. -/
theorem checkMissing_renders_status (d : Dom) (sp : StatusSpan)
    (h : d.statusSpan = some sp) :
    (0 < (checkMissing d).1 →
      (checkMissing d).2.statusSpan =
        some ⟨toString (checkMissing d).1 ++ " required field(s) still incomplete.", "red"⟩) ∧
    ((checkMissing d).1 = 0 →
      (checkMissing d).2.statusSpan =
        some ⟨"All required fields completed.", "green"⟩) := by
  have h1 : checkMissing d =
      (countMissing d.requiredFields,
       if 0 < countMissing d.requiredFields then
         { d with
             statusSpan := some ⟨toString (countMissing d.requiredFields) ++ " required field(s) still incomplete.", "red"⟩ }
       else { d with statusSpan := some ⟨"All required fields completed.", "green"⟩ }) := by
    unfold checkMissing
    rw [h]
    dsimp
    split <;> rfl
  rw [h1]
  dsimp
  constructor <;> intro hn
  · rw [if_pos hn]
  · rw [if_neg (by omega)]

/-- Witness for C7: red incomplete text in Scenario A, green completed text
in Scenario B. -/
theorem checkMissing_renders_status_witness :
    (checkMissing demoDom).2.statusSpan =
      some ⟨"1 required field(s) still incomplete.", "red"⟩ ∧
    (checkMissing fullDom).2.statusSpan =
      some ⟨"All required fields completed.", "green"⟩ := by
  constructor
  · have h1 := (checkMissing_renders_status demoDom ⟨"", ""⟩ rfl).1 (by decide)
    rw [h1]
    decide
  · exact (checkMissing_renders_status fullDom ⟨"", ""⟩ rfl).2 (by decide)

/-- C8: With the email input present, after validateEmail the invalid class
is on the email input exactly when the trimmed value is shorter than 8,
and the input's value is untouched. -/
theorem validateEmail_invalid_marker (d : Dom) (e : EmailInput)
    (h : d.email = some e) :
    ∃ e2 : EmailInput, (validateEmail d).2.email = some e2 ∧
      e2.value = e.value ∧
      ("invalid" ∈ e2.classList ↔ (jsTrim e.value).length < 8) := by
  unfold validateEmail
  rw [h]
  dsimp
  by_cases hv : 8 ≤ (jsTrim e.value).length
  · rw [if_neg (by simp [hv])]
    exact ⟨_, rfl, rfl,
      iff_of_false (not_mem_classRemove e.classList "invalid") (by omega)⟩
  · rw [if_pos (by simp [hv])]
    exact ⟨_, rfl, rfl,
      iff_of_true (mem_classAdd e.classList "invalid") (by omega)⟩

/-- Witness for C8 at Scenario A's email value "abc". -/
theorem validateEmail_invalid_marker_witness :
    ∃ e2 : EmailInput, (validateEmail demoDom).2.email = some e2 ∧
      ("invalid" ∈ e2.classList ↔ (jsTrim "abc").length < 8) := by
  obtain ⟨e2, h1, _, h3⟩ := validateEmail_invalid_marker demoDom ⟨"abc", []⟩ rfl
  exact ⟨e2, h1, h3⟩

/-- C9: Both checks are idempotent: a second run on the DOM produced by the
first run returns the same value and the same rendered output. -/
theorem repeated_checks_idempotent (d : Dom) :
    checkMissing (checkMissing d).2 = checkMissing d ∧
    validateEmail (validateEmail d).2 = validateEmail d :=
  ⟨checkMissing_idem d, validateEmail_idem d⟩

/-- C10: No operation modifies any input field's text value: checkMissing,
validateEmail and validateForm each leave the required field values and the
email input's value untouched. -/
theorem operations_never_modify_values (d : Dom) :
    ((checkMissing d).2.requiredFields = d.requiredFields ∧
     (checkMissing d).2.email.map EmailInput.value = d.email.map EmailInput.value) ∧
    ((validateEmail d).2.requiredFields = d.requiredFields ∧
     (validateEmail d).2.email.map EmailInput.value = d.email.map EmailInput.value) ∧
    ((validateForm d).1.requiredFields = d.requiredFields ∧
     (validateForm d).1.email.map EmailInput.value = d.email.map EmailInput.value) :=
  ⟨⟨(checkMissing_frame d).1, by rw [(checkMissing_frame d).2]⟩,
   validateEmail_frame d, validateForm_fst_frame d⟩

end FormValidation
